import Mathlib

/-!
Shallow embedding of the message-analysis core of the repository
(src/app/api/analyze/route.ts): the rule-based fallback analyzer
(`analyzeWithFallback`) and the response parser (`parseAnalysisResponse`),
together with theorems settling the specification claims about them.

Strings are modelled as Lean `String` (lists of Unicode scalar values);
the JavaScript operations used by the source (`toLowerCase`, `includes`,
`trim`, `split`, anchored case-insensitive label tests, and the literal
alternation regexes) are modelled as the corresponding functions below.
-/

/-- The result record returned by the analyzers (TypeScript interface
`AnalysisResult`).  The rule-based analyzer always assigns every field,
with `suggestedReply` possibly `undefined` (modelled as `Option`) and
`leadQualityScore` a nonnegative integer. -/
structure AnalysisResult where
  riskLevel : String
  reason : String
  businessImpact : String
  recommendedAction : String
  suggestedReply : Option String
  leadQualityScore : Nat
  businessInsight : String
deriving DecidableEq

/-- Bool test: `pat` occurs as a contiguous sublist of the second list.
Model of JavaScript `String.prototype.includes`. -/
def listContains (pat : List Char) : List Char → Bool
  | [] => pat.isPrefixOf ([])
  | c :: t => pat.isPrefixOf (c :: t) || listContains pat t

/-- Model of JavaScript `s.includes(pat)`. -/
def strContains (s pat : String) : Bool :=
  listContains pat.data s.data

/-- Model of JavaScript `s.toLowerCase()` (character-wise lowering; the
keywords involved are ASCII). -/
def lowerStr (s : String) : String :=
  String.mk (s.data.map Char.toLower)

/-- Keyword list from `analyzeWithFallback` (fraud). -/
def fraudKeywords : List String :=
  ["urgent", "wire", "bank account", "password", "verify", "suspended",
   "click here", "act now", "limited time"]

/-- Keyword list from `analyzeWithFallback` (sales). -/
def salesKeywords : List String :=
  ["interested", "quote", "pricing", "demo", "meeting", "budget",
   "looking for", "need"]

/-- Keyword list from `analyzeWithFallback` (complaint). -/
def complaintKeywords : List String :=
  ["disappointed", "unhappy", "refund", "complaint", "terrible", "awful",
   "never again"]

/-- Signal `isFraud`: some fraud keyword occurs in the lowercased message. -/
def isFraud (message : String) : Bool :=
  fraudKeywords.any (fun k => strContains (lowerStr message) k)

/-- Signal `isSales`. -/
def isSales (message : String) : Bool :=
  salesKeywords.any (fun k => strContains (lowerStr message) k)

/-- Signal `isComplaint`. -/
def isComplaint (message : String) : Bool :=
  complaintKeywords.any (fun k => strContains (lowerStr message) k)

/-- Signal `hasUrl`: the source tests the regex `https?:\/\/` against the
original message, with no case-insensitivity flag, so it is a
case-sensitive search for the literal text `http://` or `https://`. -/
def hasUrl (message : String) : Bool :=
  strContains message ("http://") || strContains message ("https://")

/-- Signal `hasUrgency`: case-insensitive alternation regex
`urgent|immediately|asap|right now|act now`. -/
def hasUrgency (message : String) : Bool :=
  (["urgent", "immediately", "asap", "right now", "act now"] : List String).any
    (fun k => strContains (lowerStr message) k)

/-- Signal `requestsInfo`: case-insensitive alternation regex
`password|account|credit card|ssn|social security`. -/
def requestsInfo (message : String) : Bool :=
  (["password", "account", "credit card", "ssn", "social security"] : List String).any
    (fun k => strContains (lowerStr message) k)

/-- Risk level computed by `analyzeWithFallback` (the sequential
`if`/`else if` chain starting from the default value `Safe`). -/
def riskLevelOf (message : String) : String :=
  if (isFraud message || (hasUrgency message && requestsInfo message)) && hasUrl message then
    ("High Risk Fraud")
  else if hasUrgency message || requestsInfo message || (hasUrl message && isFraud message) then
    ("Suspicious")
  else
    ("Safe")

/-- The `reason` string assigned in the same branches as the risk level. -/
def reasonOf (message : String) : String :=
  if (isFraud message || (hasUrgency message && requestsInfo message)) && hasUrl message then
    ("Message contains multiple fraud indicators: urgency pressure, requests for sensitive information, and external links. Pattern consistent with phishing or social engineering attacks.")
  else if hasUrgency message || requestsInfo message || (hasUrl message && isFraud message) then
    ("Message contains potential risk indicators such as urgency language, requests for information, or suspicious links. Requires careful verification before responding.")
  else
    ("Message appears to be a normal business communication with no obvious risk indicators.")

/-- The `businessImpact` priority chain of `analyzeWithFallback`. -/
def businessImpactOf (message : String) : String :=
  if riskLevelOf message == ("High Risk Fraud") then
    ("High risk of financial loss, data breach, or security compromise. Could lead to unauthorized access to systems, financial accounts, or sensitive business information.")
  else if riskLevelOf message == ("Suspicious") then
    ("Moderate risk of security incident or fraud. Could potentially lead to data exposure or financial loss if not properly verified.")
  else if isComplaint message then
    ("Customer satisfaction and reputation risk. Requires prompt attention to prevent escalation and negative reviews.")
  else if isSales message then
    ("Potential revenue opportunity. Timely response could lead to new business.")
  else
    ("Minimal risk to business operations.")

/-- The `recommendedAction` priority chain of `analyzeWithFallback`. -/
def recommendedActionOf (message : String) : String :=
  if riskLevelOf message == ("High Risk Fraud") then
    ("DO NOT RESPOND. Do not click any links. Report to IT security team immediately. Block sender and mark as spam.")
  else if riskLevelOf message == ("Suspicious") then
    ("Verify sender identity through separate communication channel before responding. Do not click links or provide information. Consult security team if uncertain.")
  else if isComplaint message then
    ("Respond within 24 hours. Acknowledge issue, apologize, and offer resolution. Escalate to customer service manager if needed.")
  else if isSales message then
    ("Follow up within 24-48 hours. Qualify lead by understanding needs, budget, and timeline. Schedule discovery call if appropriate.")
  else
    ("Respond professionally within 1-2 business days. Address inquiry directly and provide requested information.")

/-- Sales reply template string of `analyzeWithFallback`. -/
def salesReplyTemplate : String :=
  "Thank you for your interest in our services. I\x27d be happy to discuss how we can help meet your needs.\n\nCould you provide more details about:\n- Your specific requirements\n- Timeline for implementation\n- Budget considerations\n\nI\x27m available for a brief call this week to explore further. Please let me know your availability.\n\nBest regards"

/-- Complaint (apology) reply template string of `analyzeWithFallback`. -/
def complaintReplyTemplate : String :=
  "Thank you for bringing this to our attention. I sincerely apologize for any inconvenience you\x27ve experienced.\n\nWe take these matters seriously and would like to resolve this as quickly as possible. Could you please provide additional details so we can investigate and address your concerns?\n\nI\x27m personally committed to ensuring we find a satisfactory resolution.\n\nBest regards"

/-- Generic acknowledgment reply template string of `analyzeWithFallback`. -/
def genericReplyTemplate : String :=
  "Thank you for reaching out.\n\n[Address the specific inquiry or request here]\n\nPlease let me know if you need any additional information.\n\nBest regards"

/-- The `suggestedReply` selection chain of `analyzeWithFallback`
(starting from `undefined`). -/
def suggestedReplyOf (message : String) : Option String :=
  if riskLevelOf message == ("Safe") && isSales message then
    some salesReplyTemplate
  else if isComplaint message then
    some complaintReplyTemplate
  else if riskLevelOf message == ("Safe") then
    some genericReplyTemplate
  else
    none

/-- The lead-quality scoring block of `analyzeWithFallback`: 0 unless
`isSales && riskLevel === Safe`; otherwise base 5 plus keyword and
length bonuses, capped at 10 by `Math.min`. -/
def leadQualityScoreOf (message : String) : Nat :=
  if isSales message && (riskLevelOf message == ("Safe")) then
    min ((5
      + (if strContains (lowerStr message) ("budget") then 2 else 0)
      + (if strContains (lowerStr message) ("timeline") || strContains (lowerStr message) ("when") then 1 else 0)
      + (if strContains (lowerStr message) ("demo") || strContains (lowerStr message) ("meeting") then 1 else 0)
      + (if message.length > 200 then 1 else 0))) 10
  else 0

/-- The `businessInsight` priority chain of `analyzeWithFallback`;
the sales branch interpolates the computed lead score. -/
def businessInsightOf (message : String) : String :=
  if isSales message then
    let score := leadQualityScoreOf message
    s!"This appears to be a sales opportunity. Lead quality: {score}/10. Priority response recommended to maximize conversion potential."
  else if isComplaint message then
    ("Customer retention risk. Immediate empathetic response required. This is an opportunity to demonstrate excellent customer service and prevent negative publicity.")
  else if riskLevelOf message == ("High Risk Fraud") then
    ("Security threat detected. This message follows common fraud patterns. Employee training on security awareness is recommended to prevent future incidents.")
  else if riskLevelOf message == ("Suspicious") then
    ("Exercise caution. Verify authenticity before engagement. Implement sender verification protocols for similar messages.")
  else
    ("Standard business communication. Respond professionally and maintain service level standards for response time.")

/-- The rule-based fallback analyzer `analyzeWithFallback(message,
senderInfo?, context?)`.  The two optional parameters appear in the
source signature but are never read in the body. -/
def fallbackAnalyze (message : String) (senderInfo context : Option String) : AnalysisResult :=
  { riskLevel := riskLevelOf message
    reason := reasonOf message
    businessImpact := businessImpactOf message
    recommendedAction := recommendedActionOf message
    suggestedReply := suggestedReplyOf message
    leadQualityScore := leadQualityScoreOf message
    businessInsight := businessInsightOf message }

/-- JavaScript whitespace characters removed by `trim` (ASCII part). -/
def isWsChar (c : Char) : Bool :=
  c == ' ' || c == '\t' || c == '\n' || c == '\r' || c == '\x0b' || c == '\x0c'

/-- Model of JavaScript `s.trim()`. -/
def trimList (l : List Char) : List Char :=
  ((l.dropWhile isWsChar).reverse.dropWhile isWsChar).reverse

/-- Model of JavaScript `s.trim()` on strings. -/
def trimStr (s : String) : String :=
  String.mk (trimList s.data)

/-- Split a character list at newline characters (model of
JavaScript `text.split('\n')`). -/
def splitNl : List Char → List (List Char)
  | [] => [[]]
  | c :: t =>
    match splitNl t with
    | [] => [[]]
    | r :: rs => if c == '\n' then [] :: r :: rs else (c :: r) :: rs

/-- The nonblank lines scanned by the secondary path of
`parseAnalysisResponse`: `text.split('\n').filter(line => line.trim())`. -/
def scanLines (text : String) : List String :=
  ((splitNl text.data).map String.mk).filter (fun l => !(trimStr l == ("")))

/-- Case-insensitive anchored label test: model of
`trimmed.match(/^Label/i)` for a literal label (given here lowercased). -/
def startsWithCI (t label : String) : Bool :=
  label.data.isPrefixOf (lowerStr t).data

/-- Model of JavaScript `s.slice`-style suffix: drop the first `n`
characters. -/
def dropStr (s : String) (n : Nat) : String :=
  String.mk (s.data.drop n)

/-- The numeric value of a list of decimal digit characters. -/
def digitsToNat (l : List Char) : Nat :=
  l.foldl (fun a c => a * 10 + (c.toNat - 48)) 0

/-- First maximal run of decimal digits in a character list, as a number:
model of `trimmed.match(/(\d+)/)` followed by `parseInt`. -/
def firstDigitRun : List Char → Option Nat
  | [] => none
  | c :: t =>
    if c.isDigit then some (digitsToNat (c :: t.takeWhile Char.isDigit))
    else firstDigitRun t

/-- Model of `trimmed.replace(/^Suggested Reply[^:]*:/i, '').trim()`:
if a colon occurs after the 15-character label, the regex removes
everything through the first such colon; otherwise the regex does not
match and the string is returned unchanged (then trimmed). -/
def stripReplyLabel (t : String) : String :=
  let rest := t.data.drop 15
  if rest.contains ':' then
    trimStr (String.mk ((rest.dropWhile (fun c => !(c == ':'))).drop 1))
  else
    trimStr t

/-- Mutable state of the line-scanning loop of `parseAnalysisResponse`:
the result object under construction plus the `currentField` cursor. -/
structure ScanState where
  riskLevel : String
  reason : String
  businessImpact : String
  recommendedAction : String
  businessInsight : String
  suggestedReply : Option String
  leadQualityScore : Option Nat
  currentField : String
deriving DecidableEq

/-- Initial state of the line-scanning loop (string fields empty,
`riskLevel` `Unknown`, optional fields undefined, no cursor). -/
def initScanState : ScanState :=
  { riskLevel := ("Unknown"), reason := (""), businessImpact := ("")
    recommendedAction := (""), businessInsight := ("")
    suggestedReply := none, leadQualityScore := none, currentField := ("") }

/-- One iteration of the line-scanning loop of `parseAnalysisResponse`
(the `for (const line of lines)` body). -/
def scanStep (st : ScanState) (line : String) : ScanState :=
  let trimmed := trimStr line
  if startsWithCI trimmed ("risk level:") then
    { st with currentField := ("riskLevel"), riskLevel := trimStr (dropStr trimmed 11) }
  else if startsWithCI trimmed ("reason:") then
    { st with currentField := ("reason"), reason := trimStr (dropStr trimmed 7) }
  else if startsWithCI trimmed ("business impact:") then
    { st with currentField := ("businessImpact"), businessImpact := trimStr (dropStr trimmed 16) }
  else if startsWithCI trimmed ("recommended action:") then
    { st with currentField := ("recommendedAction"), recommendedAction := trimStr (dropStr trimmed 19) }
  else if startsWithCI trimmed ("suggested reply") then
    let reply := stripReplyLabel trimmed
    { st with currentField := ("suggestedReply"),
              suggestedReply := if reply == ("") then st.suggestedReply else some reply }
  else if startsWithCI trimmed ("lead quality score") then
    let score := firstDigitRun trimmed.data
    { st with currentField := ("leadQualityScore"),
              leadQualityScore := match score with | some n => some n | none => st.leadQualityScore }
  else if startsWithCI trimmed ("business insight:") then
    { st with currentField := ("businessInsight"), businessInsight := trimStr (dropStr trimmed 17) }
  else if !(trimmed == ("")) && !(st.currentField == ("")) then
    if st.currentField == ("suggestedReply") then
      { st with suggestedReply := some ((st.suggestedReply.getD ("")) ++ "\n" ++ trimmed) }
    else if st.currentField == ("riskLevel") then
      { st with riskLevel := st.riskLevel ++ " " ++ trimmed }
    else if st.currentField == ("reason") then
      { st with reason := st.reason ++ " " ++ trimmed }
    else if st.currentField == ("businessImpact") then
      { st with businessImpact := st.businessImpact ++ " " ++ trimmed }
    else if st.currentField == ("recommendedAction") then
      { st with recommendedAction := st.recommendedAction ++ " " ++ trimmed }
    else if st.currentField == ("businessInsight") then
      { st with businessInsight := st.businessInsight ++ " " ++ trimmed }
    else
      st
  else
    st

/-- Any of the seven anchored labels recognized by the line scanner. -/
def matchesAnyLabel (trimmed : String) : Bool :=
  startsWithCI trimmed ("risk level:") || startsWithCI trimmed ("reason:")
    || startsWithCI trimmed ("business impact:")
    || startsWithCI trimmed ("recommended action:")
    || startsWithCI trimmed ("suggested reply")
    || startsWithCI trimmed ("lead quality score")
    || startsWithCI trimmed ("business insight:")

/-- An exact decimal number `mant * 10 ^ exp10`, kept in the canonical
form where `mant` is not divisible by 10 (and `0` is `(0, 0)`): two JSON
numerals denote the same rational exactly when their canonical forms
coincide.  Model of the numbers `JSON.parse` produces (the numerals
relevant here are small integers, where the IEEE double used by
JavaScript is exact). -/
structure JNum where
  mant : Int
  exp10 : Int
deriving DecidableEq

/-- Remove factors of ten from `n` (fuel-indexed so that the kernel can
evaluate it; `fuel = n` always suffices). -/
def stripTens : Nat → Nat → Int → Nat × Int
  | 0, n, e => (n, e)
  | f + 1, n, e => if n % 10 == 0 && !(n == 0) then stripTens f (n / 10) (e + 1) else (n, e)

/-- The canonical `JNum` with value `(-1)^neg * n * 10 ^ e`. -/
def jnumMk (neg : Bool) (n : Nat) (e : Int) : JNum :=
  if n == 0 then ⟨0, 0⟩
  else
    let p := stripTens n n e
    ⟨if neg then -(p.1 : Int) else (p.1 : Int), p.2⟩

/-- The canonical `JNum` of a natural number. -/
def jnumOfNat (n : Nat) : JNum :=
  jnumMk false n 0

/-- Runtime JavaScript values that `JSON.parse` can produce. -/
inductive JSValue where
  | null : JSValue
  | bool : Bool → JSValue
  | num : JNum → JSValue
  | str : String → JSValue
  | arr : List JSValue → JSValue
  | obj : List (String × JSValue) → JSValue

/-- JavaScript truthiness of a parsed JSON value (`NaN` cannot arise
from JSON text). -/
def truthy : JSValue → Bool
  | .null => false
  | .bool b => b
  | .num q => !(q.mant == 0)
  | .str s => !(s == (""))
  | .arr _ => true
  | .obj _ => true

/-- Property access on a parsed JSON object: with duplicate keys,
`JSON.parse` keeps the last occurrence. -/
def jsGet (fields : List (String × JSValue)) (k : String) : Option JSValue :=
  fields.reverse.lookup k

/-- JavaScript `v || d` on an optionally-present property. -/
def jsOr (v : Option JSValue) (d : JSValue) : JSValue :=
  match v with
  | some x => if truthy x then x else d
  | none => d

/-- The result produced by `parseAnalysisResponse` at the JavaScript
level: the JSON path can place arbitrary parsed values in the fields,
so they are `JSValue`s; `suggestedReply` and `leadQualityScore` can be
left `undefined` (`none`). -/
structure ParsedResult where
  riskLevel : JSValue
  reason : JSValue
  businessImpact : JSValue
  recommendedAction : JSValue
  suggestedReply : Option JSValue
  leadQualityScore : Option JSValue
  businessInsight : JSValue

/-- The object returned on the successful JSON path of
`parseAnalysisResponse` (lines 79-87 of the source). -/
def jsonPathResult (fields : List (String × JSValue)) : ParsedResult :=
  { riskLevel := jsOr (jsGet fields ("riskLevel")) (.str ("Unknown"))
    reason := jsOr (jsGet fields ("reason")) (.str ("No reason provided"))
    businessImpact := jsOr (jsGet fields ("businessImpact")) (.str ("No impact assessment provided"))
    recommendedAction := jsOr (jsGet fields ("recommendedAction")) (.str ("No action recommended"))
    suggestedReply :=
      match jsGet fields ("suggestedReply") with
      | some v => if truthy v then some v else none
      | none => none
    leadQualityScore := some (jsOr (jsGet fields ("leadQualityScore")) (.num (jnumOfNat 0)))
    businessInsight := jsOr (jsGet fields ("businessInsight")) (.str ("No insight provided")) }

/-- Injection of the final scan state into the result record. -/
def stateToParsed (st : ScanState) : ParsedResult :=
  { riskLevel := .str st.riskLevel
    reason := .str st.reason
    businessImpact := .str st.businessImpact
    recommendedAction := .str st.recommendedAction
    suggestedReply := st.suggestedReply.map JSValue.str
    leadQualityScore := st.leadQualityScore.map (fun n => .num (jnumOfNat n))
    businessInsight := .str st.businessInsight }

/-- The full secondary (line-scanning) path of `parseAnalysisResponse`. -/
def lineScanOf (text : String) : ParsedResult :=
  stateToParsed ((scanLines text).foldl scanStep initScanState)

/-- Value of a hexadecimal digit character (either case accepted, as in
JSON `\u` escapes). -/
def hexVal (c : Char) : Option Nat :=
  if c.toNat >= 48 && c.toNat <= 57 then some (c.toNat - 48)
  else if c.toNat >= 97 && c.toNat <= 102 then some (c.toNat - 87)
  else if c.toNat >= 65 && c.toNat <= 70 then some (c.toNat - 55)
  else none

/-- Value of four hexadecimal digits. -/
def hex4 (a b c d : Char) : Option Nat :=
  match hexVal a, hexVal b, hexVal c, hexVal d with
  | some x, some y, some z, some w => some (((x * 16 + y) * 16 + z) * 16 + w)
  | _, _, _, _ => none

/-- The scalar value denoted by an unpaired `\uXXXX` escape.  A lone
UTF-16 surrogate is not a Unicode scalar value and cannot inhabit
`Char`; U+FFFD stands in for that corner of the JavaScript model. -/
def codeUnitChar (n : Nat) : Char :=
  if 57344 <= n || n < 55296 then Char.ofNat n else Char.ofNat 65533

/-- JSON string-literal contents, entered after the opening quote:
returns the decoded characters and the input after the closing quote.
Models the string grammar accepted by `JSON.parse`: the named escapes,
`\u` escapes, and raw control characters refused.  Each `\uXXXX` escape
is decoded independently (a UTF-16 surrogate, which cannot inhabit
`Char`, becomes U+FFFD); the JavaScript pairing of two adjacent
surrogate escapes into one supplementary character is outside this
model, and no character above U+FFFF written as an escape appears in
any input considered here. -/
def parseStrChars : List Char → Option (List Char × List Char)
  | [] => none
  | c :: rest =>
    if c == '"' then some ([], rest)
    else if c == '\\' then
      match rest with
      | [] => none
      | e :: rest2 =>
        if e == '"' then (parseStrChars rest2).map (fun p => ('"' :: p.1, p.2))
        else if e == '\\' then (parseStrChars rest2).map (fun p => ('\\' :: p.1, p.2))
        else if e == '/' then (parseStrChars rest2).map (fun p => ('/' :: p.1, p.2))
        else if e == 'b' then (parseStrChars rest2).map (fun p => ('\x08' :: p.1, p.2))
        else if e == 'f' then (parseStrChars rest2).map (fun p => ('\x0c' :: p.1, p.2))
        else if e == 'n' then (parseStrChars rest2).map (fun p => ('\n' :: p.1, p.2))
        else if e == 'r' then (parseStrChars rest2).map (fun p => ('\r' :: p.1, p.2))
        else if e == 't' then (parseStrChars rest2).map (fun p => ('\t' :: p.1, p.2))
        else if e == 'u' then
          match rest2 with
          | a :: b :: c2 :: d :: rest3 =>
            (match hex4 a b c2 d with
             | none => none
             | some n => (parseStrChars rest3).map (fun p => (codeUnitChar n :: p.1, p.2)))
          | _ => none
        else none
    else if c.toNat < 32 then none
    else (parseStrChars rest).map (fun p => (c :: p.1, p.2))
termination_by structural l => l

/-- JSON insignificant whitespace. -/
def skipWs (l : List Char) : List Char :=
  l.dropWhile (fun c => c == ' ' || c == '\t' || c == '\n' || c == '\r')

/-- Exact value of a JSON numeral given sign, integer digits, fraction
digits and decimal exponent. -/
def mkNum (neg : Bool) (intD fracD : List Char) (e : Int) : JNum :=
  jnumMk neg (digitsToNat (intD ++ fracD)) (e - fracD.length)

/-- JSON numeral parser (grammar `-? int frac? exp?`, leading zeros
refused), returning the exact value and the rest of the input. -/
def parseNumber (l : List Char) : Option (JNum × List Char) :=
  let p := match l with
    | '-' :: t => (true, t)
    | _ => (false, l)
  let neg := p.1
  let l1 := p.2
  let intD := l1.takeWhile Char.isDigit
  let l2 := l1.dropWhile Char.isDigit
  if intD.isEmpty then none
  else if decide (intD.length > 1) && (intD.head? == some '0') then none
  else
    let q := match l2 with
      | '.' :: t => (t.takeWhile Char.isDigit, t.dropWhile Char.isDigit, true)
      | _ => ([], l2, false)
    let fracD := q.1
    let l3 := q.2.1
    let hasFrac := q.2.2
    if hasFrac && fracD.isEmpty then none
    else
      match l3 with
      | e :: t =>
        if e == 'e' || e == 'E' then
          let s := match t with
            | '+' :: u => ((1 : Int), u)
            | '-' :: u => ((-1 : Int), u)
            | _ => ((1 : Int), t)
          let expD := s.2.takeWhile Char.isDigit
          let l4 := s.2.dropWhile Char.isDigit
          if expD.isEmpty then none
          else some (mkNum neg intD fracD (s.1 * (digitsToNat expD : Int)), l4)
        else some (mkNum neg intD fracD 0, e :: t)
      | [] => some (mkNum neg intD fracD 0, [])

mutual

/-- Fuel-indexed recursive-descent JSON value parser (model of
`JSON.parse`); the fuel only bounds nesting and member counts, and the
top-level entry point supplies more fuel than any input can consume. -/
def parseJValue : Nat → List Char → Option (JSValue × List Char)
  | 0, _ => none
  | fuel + 1, l =>
    match skipWs l with
    | [] => none
    | c :: rest =>
      if c == '{' then
        match skipWs rest with
        | [] => none
        | c2 :: r2 =>
          if c2 == '}' then some (.obj [], r2)
          else parseMembers fuel (c2 :: r2) []
      else if c == '[' then
        match skipWs rest with
        | [] => none
        | c2 :: r2 =>
          if c2 == ']' then some (.arr [], r2)
          else parseElems fuel (c2 :: r2) []
      else if c == '"' then
        (parseStrChars rest).map (fun p => (.str (String.mk p.1), p.2))
      else if c == 'n' then
        match rest with
        | 'u' :: 'l' :: 'l' :: r2 => some (.null, r2)
        | _ => none
      else if c == 't' then
        match rest with
        | 'r' :: 'u' :: 'e' :: r2 => some (.bool true, r2)
        | _ => none
      else if c == 'f' then
        match rest with
        | 'a' :: 'l' :: 's' :: 'e' :: r2 => some (.bool false, r2)
        | _ => none
      else
        (parseNumber (c :: rest)).map (fun p => (.num p.1, p.2))

/-- Object members after `{` (first member expected at the head). -/
def parseMembers : Nat → List Char → List (String × JSValue) → Option (JSValue × List Char)
  | 0, _, _ => none
  | fuel + 1, l, acc =>
    match skipWs l with
    | [] => none
    | c :: rest =>
      if c == '"' then
        match parseStrChars rest with
        | none => none
        | some (key, r2) =>
          match skipWs r2 with
          | ':' :: r3 =>
            match parseJValue fuel r3 with
            | none => none
            | some (v, r4) =>
              match skipWs r4 with
              | ',' :: r5 => parseMembers fuel r5 (acc ++ [(String.mk key, v)])
              | '}' :: r5 => some (.obj (acc ++ [(String.mk key, v)]), r5)
              | _ => none
          | _ => none
      else none

/-- Array elements after `[` (first element expected at the head). -/
def parseElems : Nat → List Char → List JSValue → Option (JSValue × List Char)
  | 0, _, _ => none
  | fuel + 1, l, acc =>
    match parseJValue fuel l with
    | none => none
    | some (v, r) =>
      match skipWs r with
      | ',' :: r2 => parseElems fuel r2 (acc ++ [v])
      | ']' :: r2 => some (.arr (acc ++ [v]), r2)
      | _ => none

end

/-- Model of `JSON.parse` on a whole string: one value, with only
whitespace allowed around it. -/
def jsonParseJS (s : String) : Option JSValue :=
  match parseJValue (s.data.length + 1) s.data with
  | some (v, rest) => if (skipWs rest).isEmpty then some v else none
  | none => none

/-- Model of `text.match(/\x7b[\s\S]*\x7d/)`: the regex engine starts at
the leftmost position where a match exists, and the greedy `[\s\S]*`
extends the match to the last closing brace of the whole text; so a match
exists exactly when the first brace of the text is followed by a later
closing brace, and it spans from that first brace to the last closing
brace. -/
def extractBraces (s : String) : Option String :=
  match s.data.findIdx? (fun c => c == '{'), (s.data.reverse.findIdx? (fun c => c == '}')) with
  | some i, some rj =>
    let j := s.data.length - 1 - rj
    if i < j then some (String.mk ((s.data.drop i).take (j - i + 1))) else none
  | _, _ => none

/-- The response parser `parseAnalysisResponse(text)`: the primary path
extracts the brace-delimited span and feeds it to `JSON.parse`; on any
failure (no brace span, or a `JSON.parse` exception caught by the
`try`/`catch`) the secondary line-scanning path runs.  A successfully
parsed extract always starts with `{`, hence is an object. -/
def parseAnalysisResponse (text : String) : ParsedResult :=
  match extractBraces text with
  | some jsTxt =>
    match jsonParseJS jsTxt with
    | some (.obj fields) => jsonPathResult fields
    | _ => lineScanOf text
  | none => lineScanOf text

/-- Lowercase hexadecimal digit character of `n < 16`. -/
def hexDigitChar (n : Nat) : Char :=
  if n < 10 then Char.ofNat (48 + n) else Char.ofNat (87 + n)

/-- Model of the escaping `JSON.stringify` applies to one character of a
string: the two-character named escapes, `\u00XX` for the remaining
control characters, and every other character kept as itself. -/
def escChar (c : Char) : List Char :=
  if c == '"' then ['\\', '"']
  else if c == '\\' then ['\\', '\\']
  else if c == '\x08' then ['\\', 'b']
  else if c == '\t' then ['\\', 't']
  else if c == '\n' then ['\\', 'n']
  else if c == '\x0c' then ['\\', 'f']
  else if c == '\r' then ['\\', 'r']
  else if c.toNat < 32 then
    ['\\', 'u', '0', '0', hexDigitChar (c.toNat / 16), hexDigitChar (c.toNat % 16)]
  else [c]

/-- A JSON string literal (quotes plus escaped contents). -/
def quoteData (cs : List Char) : List Char :=
  '"' :: (cs.flatMap escChar ++ ['"'])

/-- The member list of the serialized JSON object: fields in the
insertion order of the result object literal of the source, with an
`undefined` `suggestedReply` omitted, no insignificant whitespace. -/
def stringifyFields (r : AnalysisResult) : List Char :=
  quoteData ("riskLevel").data ++ [':'] ++ quoteData r.riskLevel.data
  ++ [','] ++ quoteData ("reason").data ++ [':'] ++ quoteData r.reason.data
  ++ [','] ++ quoteData ("businessImpact").data ++ [':'] ++ quoteData r.businessImpact.data
  ++ [','] ++ quoteData ("recommendedAction").data ++ [':'] ++ quoteData r.recommendedAction.data
  ++ (match r.suggestedReply with
      | some rep => [','] ++ quoteData ("suggestedReply").data ++ [':'] ++ quoteData rep.data
      | none => [])
  ++ [','] ++ quoteData ("leadQualityScore").data ++ [':'] ++ (Nat.repr r.leadQualityScore).data
  ++ [','] ++ quoteData ("businessInsight").data ++ [':'] ++ quoteData r.businessInsight.data

/-- Model of `JSON.stringify` on an `AnalysisResult`, as the orchestrator
serializes the analyzer output (`NextResponse.json(result)`): the member
list wrapped in braces. -/
def stringifyData (r : AnalysisResult) : List Char :=
  '\x7b' :: (stringifyFields r ++ ['\x7d'])

/-- The serialized JSON text of an `AnalysisResult`. -/
def stringifyResult (r : AnalysisResult) : String :=
  String.mk (stringifyData r)

/-- The parsed member list the serialized object denotes. -/
def jsonFieldsOf (r : AnalysisResult) : List (String × JSValue) :=
  [(("riskLevel"), JSValue.str r.riskLevel), (("reason"), JSValue.str r.reason),
   (("businessImpact"), JSValue.str r.businessImpact),
   (("recommendedAction"), JSValue.str r.recommendedAction)]
  ++ (match r.suggestedReply with
      | some rep => [(("suggestedReply"), JSValue.str rep)]
      | none => [])
  ++ [(("leadQualityScore"), JSValue.num (jnumOfNat r.leadQualityScore)),
      (("businessInsight"), JSValue.str r.businessInsight)]

/-- The `ParsedResult` whose fields carry exactly the values of a typed
`AnalysisResult` (used to state field-for-field round-trip equality). -/
def resultToJS (r : AnalysisResult) : ParsedResult :=
  { riskLevel := .str r.riskLevel
    reason := .str r.reason
    businessImpact := .str r.businessImpact
    recommendedAction := .str r.recommendedAction
    suggestedReply := r.suggestedReply.map JSValue.str
    leadQualityScore := some (.num (jnumOfNat r.leadQualityScore))
    businessInsight := .str r.businessInsight }

/-- Modelled from the spec: the `hasUrl` signal as the claim words it.
The detection-signal table presents all six signals as case-insensitive
substring/regex tests, so under that reading `hasUrl` searches the
lowercased message; the source code instead tests `https?:\/\/` with no
case-insensitivity flag.  This definition follows the words of the spec
and is compared against the one from the source. -/
def hasUrlSpec (message : String) : Bool :=
  strContains (lowerStr message) ("http://") || strContains (lowerStr message) ("https://")


/-!
Theorems.  Each claim of the specification review is settled by one
named theorem below (with a witness instantiation where the theorem
carries hypotheses, and a counterexample where the claim as stated
fails on the code).
-/

/-- C1, amended (the `hasUrl` signal is the case-sensitive test of the
source, not the case-insensitive reading of the signal table): for every
message the risk level is `High Risk Fraud` exactly on
`(isFraud or (hasUrgency and requestsInfo)) and hasUrl`, else
`Suspicious` exactly on `hasUrgency or requestsInfo or (hasUrl and
isFraud)`, else `Safe`, evaluated in that order, first match wins; and a
message containing only `urgent` (no URL) is `Suspicious`. -/
theorem c1_risk_classification :
    (∀ (message : String) (senderInfo context : Option String),
      (fallbackAnalyze message senderInfo context).riskLevel =
        (if (isFraud message || (hasUrgency message && requestsInfo message)) && hasUrl message then
          ("High Risk Fraud")
        else if hasUrgency message || requestsInfo message || (hasUrl message && isFraud message) then
          ("Suspicious")
        else ("Safe")))
    ∧ (fallbackAnalyze ("urgent") none none).riskLevel = ("Suspicious") :=
  ⟨fun _ _ _ => rfl, by decide⟩

/-- C1, counterexample to the claim as stated: with the six signals read
as case-insensitive tests (for `hasUrl`, the spec-worded `hasUrlSpec`),
the message `urgent password HTTP://x` satisfies the High-Risk-Fraud
condition, yet the code classifies it `Suspicious`, because the code
tests the URL pattern case-sensitively. -/
theorem c1_cx_hasUrl_case_sensitivity :
    ((isFraud ("urgent password HTTP://x")
        || (hasUrgency ("urgent password HTTP://x") && requestsInfo ("urgent password HTTP://x")))
      && hasUrlSpec ("urgent password HTTP://x")) = true
    ∧ (fallbackAnalyze ("urgent password HTTP://x") none none).riskLevel = ("Suspicious")
    ∧ (fallbackAnalyze ("urgent password HTTP://x") none none).riskLevel ≠ ("High Risk Fraud") :=
  ⟨by decide, by decide, by decide⟩

/-- C4: `suggestedReply` is set exactly when the risk level is `Safe` or
the message is a complaint; a complaint gets the apology template unless
the Safe-and-sales branch precedes it; Safe-and-sales gets the sales
template; Safe with neither gets the generic template; and any non-Safe
risk without a complaint leaves the reply unset. -/
theorem c4_reply_selection (message : String) (senderInfo context : Option String) :
    ((fallbackAnalyze message senderInfo context).suggestedReply ≠ none ↔
      ((fallbackAnalyze message senderInfo context).riskLevel = ("Safe") ∨ isComplaint message = true))
    ∧ ((fallbackAnalyze message senderInfo context).riskLevel = ("Safe") → isSales message = true →
        (fallbackAnalyze message senderInfo context).suggestedReply = some salesReplyTemplate)
    ∧ (isComplaint message = true →
        ¬((fallbackAnalyze message senderInfo context).riskLevel = ("Safe") ∧ isSales message = true) →
        (fallbackAnalyze message senderInfo context).suggestedReply = some complaintReplyTemplate)
    ∧ ((fallbackAnalyze message senderInfo context).riskLevel = ("Safe") → isSales message = false →
        isComplaint message = false →
        (fallbackAnalyze message senderInfo context).suggestedReply = some genericReplyTemplate)
    ∧ ((fallbackAnalyze message senderInfo context).riskLevel ≠ ("Safe") → isComplaint message = false →
        (fallbackAnalyze message senderInfo context).suggestedReply = none) := by
  have hrep : (fallbackAnalyze message senderInfo context).suggestedReply = suggestedReplyOf message := rfl
  have hrl : (fallbackAnalyze message senderInfo context).riskLevel = riskLevelOf message := rfl
  rw [hrep, hrl]
  unfold suggestedReplyOf
  by_cases h1 : riskLevelOf message == ("Safe") <;>
    by_cases h2 : isSales message <;>
    by_cases h3 : isComplaint message <;>
    simp_all [beq_iff_eq]

set_option maxRecDepth 16384 in
/-- C4, witness: `urgent refund` is a complaint at a non-Safe risk, and
the complaint apology template is selected. -/
theorem c4_reply_selection_witness :
    (fallbackAnalyze ("urgent refund") none none).suggestedReply = some complaintReplyTemplate :=
  (c4_reply_selection ("urgent refund") none none).2.2.1 (by decide) (by decide)

/-- C5: the lead quality score is 0 unless `isSales` holds and the risk
level is `Safe`, in which case it is the capped base-plus-bonuses sum;
hence it always lies in the set containing 0 and the interval from 5 to
10; and the empty message is `Safe` with score 0. -/
theorem c5_lead_quality_score :
    (∀ (message : String) (senderInfo context : Option String),
      ((fallbackAnalyze message senderInfo context).leadQualityScore =
        (if isSales message && ((fallbackAnalyze message senderInfo context).riskLevel == ("Safe")) then
          min ((5
            + (if strContains (lowerStr message) ("budget") then 2 else 0)
            + (if strContains (lowerStr message) ("timeline") || strContains (lowerStr message) ("when") then 1 else 0)
            + (if strContains (lowerStr message) ("demo") || strContains (lowerStr message) ("meeting") then 1 else 0)
            + (if message.length > 200 then 1 else 0))) 10
        else 0))
      ∧ ((fallbackAnalyze message senderInfo context).leadQualityScore = 0
          ∨ (5 ≤ (fallbackAnalyze message senderInfo context).leadQualityScore
              ∧ (fallbackAnalyze message senderInfo context).leadQualityScore ≤ 10)))
    ∧ (fallbackAnalyze ("") none none).riskLevel = ("Safe")
    ∧ (fallbackAnalyze ("") none none).leadQualityScore = 0 := by
  refine ⟨fun message senderInfo context => ⟨rfl, ?_⟩, by decide, by decide⟩
  have h : (fallbackAnalyze message senderInfo context).leadQualityScore
      = leadQualityScoreOf message := rfl
  rw [h]
  unfold leadQualityScoreOf
  split
  case isTrue hc => right; constructor <;> omega
  case isFalse hc => left; rfl

/-- C8: both core functions are pure: repeated application agrees, and
the analyzer result does not depend on the unused optional `senderInfo`
and `context` parameters. -/
theorem c8_purity_determinism :
    (∀ (message : String) (si c si2 c2 : Option String),
      fallbackAnalyze message si c = fallbackAnalyze message si2 c2)
    ∧ (∀ (message : String) (si c : Option String),
      fallbackAnalyze message si c = fallbackAnalyze message si c)
    ∧ (∀ text : String, parseAnalysisResponse text = parseAnalysisResponse text) :=
  ⟨fun _ _ _ _ _ => rfl, fun _ _ _ => rfl, fun _ => rfl⟩

/-- C10: when the risk level is `Safe` and the message is both a sales
inquiry and a complaint, the sales branch of the reply chain wins and
the sales template is selected, not the apology template. -/
theorem c10_sales_precedes_complaint (message : String) (senderInfo context : Option String)
    (h1 : (fallbackAnalyze message senderInfo context).riskLevel = ("Safe"))
    (h2 : isSales message = true) (h3 : isComplaint message = true) :
    (fallbackAnalyze message senderInfo context).suggestedReply = some salesReplyTemplate := by
  have hrl : (fallbackAnalyze message senderInfo context).riskLevel = riskLevelOf message := rfl
  rw [hrl] at h1
  show suggestedReplyOf message = _
  unfold suggestedReplyOf
  simp [h1, h2]

set_option maxRecDepth 16384 in
/-- C10, witness: `refund meeting` is Safe, a sales inquiry and a
complaint, and receives the sales template. -/
theorem c10_sales_precedes_complaint_witness :
    isSales ("refund meeting") = true ∧ isComplaint ("refund meeting") = true
    ∧ (fallbackAnalyze ("refund meeting") none none).riskLevel = ("Safe")
    ∧ (fallbackAnalyze ("refund meeting") none none).suggestedReply = some salesReplyTemplate :=
  ⟨by decide, by decide, by decide,
    c10_sales_precedes_complaint ("refund meeting") none none (by decide) (by decide) (by decide)⟩

/-- Helper: the JavaScript default `v || d` with a non-empty string
default never produces the empty string (a truthy string is non-empty,
and non-string truthy values are not strings at all). -/
theorem jsOr_ne_empty_str (v : Option JSValue) (d : String) (hd : ¬ d = ("")) :
    jsOr v (.str d) ≠ .str ("") := by
  unfold jsOr
  match v with
  | none => simpa using hd
  | some x =>
    by_cases hx : truthy x
    · simp only [hx, if_true]
      cases x <;> simp_all [truthy]
    · simp only [hx, if_false]
      simpa using hd

/-- Helper: a line matching no label leaves the scan state unchanged
when no field cursor is active. -/
theorem scanStep_no_label (st : ScanState) (line : String)
    (h : matchesAnyLabel (trimStr line) = false) (hcf : st.currentField = ("")) :
    scanStep st line = st := by
  simp only [matchesAnyLabel, startsWithCI, Bool.or_eq_false_iff] at h
  obtain ⟨⟨⟨⟨⟨⟨h1, h2⟩, h3⟩, h4⟩, h5⟩, h6⟩, h7⟩ := h
  unfold scanStep
  simp only [startsWithCI, h1, h2, h3, h4, h5, h6, h7, hcf]
  simp

/-- Helper: scanning any list of label-free lines from a cursor-free
state leaves the state unchanged. -/
theorem scan_foldl_no_label (ls : List String) (st : ScanState)
    (h : ∀ l ∈ ls, matchesAnyLabel (trimStr l) = false) (hcf : st.currentField = ("")) :
    ls.foldl scanStep st = st := by
  induction ls with
  | nil => rfl
  | cons a t ih =>
    rw [List.foldl_cons, scanStep_no_label st a (h a (by simp)) hcf]
    exact ih (fun l hl => h l (by simp [hl]))

/-- C9: on the successful JSON path, falsy parsed field values are
coerced to the defaults (an empty-string narrative field becomes its
placeholder, an empty-string `suggestedReply` is unset, and a
`leadQualityScore` of 0, null or missing becomes 0), and the
always-present fields are never the empty string. -/
theorem c9_falsy_coercions (fields : List (String × JSValue)) :
    (jsGet fields ("reason") = some (.str ("")) →
      (jsonPathResult fields).reason = .str ("No reason provided"))
    ∧ (jsGet fields ("businessImpact") = some (.str ("")) →
      (jsonPathResult fields).businessImpact = .str ("No impact assessment provided"))
    ∧ (jsGet fields ("recommendedAction") = some (.str ("")) →
      (jsonPathResult fields).recommendedAction = .str ("No action recommended"))
    ∧ (jsGet fields ("businessInsight") = some (.str ("")) →
      (jsonPathResult fields).businessInsight = .str ("No insight provided"))
    ∧ (jsGet fields ("suggestedReply") = some (.str ("")) →
      (jsonPathResult fields).suggestedReply = none)
    ∧ ((jsGet fields ("leadQualityScore") = some (.num (jnumOfNat 0))
        ∨ jsGet fields ("leadQualityScore") = some (.null)
        ∨ jsGet fields ("leadQualityScore") = none) →
      (jsonPathResult fields).leadQualityScore = some (.num (jnumOfNat 0)))
    ∧ (jsonPathResult fields).riskLevel ≠ .str ("")
    ∧ (jsonPathResult fields).reason ≠ .str ("")
    ∧ (jsonPathResult fields).businessImpact ≠ .str ("")
    ∧ (jsonPathResult fields).recommendedAction ≠ .str ("")
    ∧ (jsonPathResult fields).businessInsight ≠ .str ("") := by
  unfold jsonPathResult
  refine ⟨?_, ?_, ?_, ?_, ?_, ?_, ?_, ?_, ?_, ?_, ?_⟩
  · intro h; rw [h]; rfl
  · intro h; rw [h]; rfl
  · intro h; rw [h]; rfl
  · intro h; rw [h]; rfl
  · intro h; rw [h]; rfl
  · rintro (h | h | h) <;> rw [h] <;> rfl
  · exact jsOr_ne_empty_str _ _ (by decide)
  · exact jsOr_ne_empty_str _ _ (by decide)
  · exact jsOr_ne_empty_str _ _ (by decide)
  · exact jsOr_ne_empty_str _ _ (by decide)
  · exact jsOr_ne_empty_str _ _ (by decide)

/-- C9, witness: an object whose relevant fields are all present but
falsy receives every documented coercion at once. -/
theorem c9_falsy_coercions_witness :
    (jsonPathResult [(("reason"), JSValue.str ("")), (("businessImpact"), JSValue.str ("")),
      (("recommendedAction"), JSValue.str ("")), (("businessInsight"), JSValue.str ("")),
      (("suggestedReply"), JSValue.str ("")), (("leadQualityScore"), JSValue.null)]).reason
        = .str ("No reason provided")
    ∧ (jsonPathResult [(("reason"), JSValue.str ("")), (("businessImpact"), JSValue.str ("")),
      (("recommendedAction"), JSValue.str ("")), (("businessInsight"), JSValue.str ("")),
      (("suggestedReply"), JSValue.str ("")), (("leadQualityScore"), JSValue.null)]).suggestedReply
        = none
    ∧ (jsonPathResult [(("reason"), JSValue.str ("")), (("businessImpact"), JSValue.str ("")),
      (("recommendedAction"), JSValue.str ("")), (("businessInsight"), JSValue.str ("")),
      (("suggestedReply"), JSValue.str ("")), (("leadQualityScore"), JSValue.null)]).leadQualityScore
        = some (.num (jnumOfNat 0)) := by
  have h := c9_falsy_coercions [(("reason"), JSValue.str ("")), (("businessImpact"), JSValue.str ("")),
      (("recommendedAction"), JSValue.str ("")), (("businessInsight"), JSValue.str ("")),
      (("suggestedReply"), JSValue.str ("")), (("leadQualityScore"), JSValue.null)]
  exact ⟨h.1 rfl, h.2.2.2.2.1 rfl, h.2.2.2.2.2.1 (Or.inr (Or.inl rfl))⟩

/-- C3, amended: `parse` is total by construction; when the JSON path
succeeds with an empty object the documented placeholder defaults are
returned; but when the input has no parsable brace span and the line
scanner recognizes no label, the four narrative fields come back as the
EMPTY string (with `riskLevel` `Unknown` and both optional fields
unset), not as the placeholder defaults. -/
theorem c3_degrade_defaults :
    (jsonPathResult [] =
      { riskLevel := .str ("Unknown"), reason := .str ("No reason provided"),
        businessImpact := .str ("No impact assessment provided"),
        recommendedAction := .str ("No action recommended"), suggestedReply := none,
        leadQualityScore := some (.num (jnumOfNat 0)),
        businessInsight := .str ("No insight provided") })
    ∧ (∀ text : String, extractBraces text = none →
        (∀ l ∈ scanLines text, matchesAnyLabel (trimStr l) = false) →
        parseAnalysisResponse text =
          { riskLevel := .str ("Unknown"), reason := .str (""), businessImpact := .str (""),
            recommendedAction := .str (""), suggestedReply := none, leadQualityScore := none,
            businessInsight := .str ("") }) := by
  refine ⟨rfl, fun text h1 h2 => ?_⟩
  unfold parseAnalysisResponse
  rw [h1]
  unfold lineScanOf
  rw [scan_foldl_no_label _ _ h2 rfl]
  rfl

/-- C3, witness: the input `hello` takes the degraded path and returns
the empty-field result. -/
theorem c3_degrade_defaults_witness : parseAnalysisResponse ("hello") =
    { riskLevel := .str ("Unknown"), reason := .str (""), businessImpact := .str (""),
      recommendedAction := .str (""), suggestedReply := none, leadQualityScore := none,
      businessInsight := .str ("") } :=
  c3_degrade_defaults.2 ("hello") (by rfl) (by decide)

/-- C3, counterexample to the claim as stated: on the input `hello`,
where neither path extracts a field, the returned `reason`,
`businessImpact`, `recommendedAction` and `businessInsight` are the
empty string, not the documented non-empty placeholder defaults. -/
theorem c3_cx_empty_not_placeholder :
    (parseAnalysisResponse ("hello")).reason = .str ("")
    ∧ (parseAnalysisResponse ("hello")).businessImpact = .str ("")
    ∧ (parseAnalysisResponse ("hello")).recommendedAction = .str ("")
    ∧ (parseAnalysisResponse ("hello")).businessInsight = .str ("")
    ∧ (parseAnalysisResponse ("hello")).riskLevel = .str ("Unknown") :=
  ⟨rfl, rfl, rfl, rfl, rfl⟩

/-- C7: in the line scanner, a non-blank line matching no label while a
cursor is active is appended to the cursor field, with a space for the
five string fields and with a newline for `suggestedReply`; and every
line appearing before the first recognized label is discarded. -/
theorem c7_continuation_and_discard :
    (∀ (st : ScanState) (line : String), ¬ trimStr line = ("") →
      matchesAnyLabel (trimStr line) = false →
      ((st.currentField = ("riskLevel") →
          scanStep st line = { st with riskLevel := st.riskLevel ++ " " ++ trimStr line })
        ∧ (st.currentField = ("reason") →
          scanStep st line = { st with reason := st.reason ++ " " ++ trimStr line })
        ∧ (st.currentField = ("businessImpact") →
          scanStep st line = { st with businessImpact := st.businessImpact ++ " " ++ trimStr line })
        ∧ (st.currentField = ("recommendedAction") →
          scanStep st line = { st with recommendedAction := st.recommendedAction ++ " " ++ trimStr line })
        ∧ (st.currentField = ("businessInsight") →
          scanStep st line = { st with businessInsight := st.businessInsight ++ " " ++ trimStr line })
        ∧ (st.currentField = ("suggestedReply") →
          scanStep st line =
            { st with suggestedReply := some ((st.suggestedReply.getD ("")) ++ "\n" ++ trimStr line) })))
    ∧ (∀ (p r : List String), (∀ l ∈ p, matchesAnyLabel (trimStr l) = false) →
        (p ++ r).foldl scanStep initScanState = r.foldl scanStep initScanState) := by
  constructor
  · intro st line hnb h
    simp only [matchesAnyLabel, startsWithCI, Bool.or_eq_false_iff] at h
    obtain ⟨⟨⟨⟨⟨⟨h1, h2⟩, h3⟩, h4⟩, h5⟩, h6⟩, h7⟩ := h
    have hnb2 : (trimStr line == ("")) = false := by
      simpa using hnb
    refine ⟨?_, ?_, ?_, ?_, ?_, ?_⟩ <;> intro hcf <;>
      (unfold scanStep;
       simp only [startsWithCI, h1, h2, h3, h4, h5, h6, h7, hcf, hnb2];
       simp)
  · intro p r hp
    rw [List.foldl_append, scan_foldl_no_label p initScanState hp rfl]

/-- C7, witness: a continuation line is appended to the active `reason`
field with a space separator, and a label-free prefix line is dropped. -/
theorem c7_continuation_and_discard_witness :
    scanStep { initScanState with currentField := ("reason"), reason := ("r0") } (" xyz ")
      = { { initScanState with currentField := ("reason"), reason := ("r0") } with
          reason := ({ initScanState with currentField := ("reason"), reason := ("r0") } : ScanState).reason
            ++ " " ++ trimStr (" xyz ") }
    ∧ (["intro"] ++ ["Reason: ok"]).foldl scanStep initScanState
        = (["Reason: ok"]).foldl scanStep initScanState := by
  have h := c7_continuation_and_discard
  exact ⟨(h.1 { initScanState with currentField := ("reason"), reason := ("r0") } (" xyz ")
      (by decide) (by decide)).2.1 rfl,
    h.2 ["intro"] ["Reason: ok"] (by decide)⟩

/-- C2, amended: `parse` always defaults an absent or falsy `riskLevel`
to `Unknown` and an absent or falsy `leadQualityScore` to 0, but truthy
values from successfully parsed JSON pass through unvalidated; the
level-membership and score-range invariants therefore hold on the
primary path exactly when the parsed JSON itself supplies conforming
(or falsy/absent) values. -/
theorem c2_value_passthrough (fields : List (String × JSValue))
    (h1 : ∀ v, jsGet fields ("riskLevel") = some v → truthy v = true →
      ∃ s, v = .str s ∧ s ∈ (["Safe", "Suspicious", "High Risk Fraud", "Unknown"] : List String))
    (h2 : ∀ v, jsGet fields ("leadQualityScore") = some v → truthy v = true →
      ∃ n : Nat, n ≤ 10 ∧ v = .num (jnumOfNat n)) :
    (∃ s, (jsonPathResult fields).riskLevel = .str s
      ∧ s ∈ (["Safe", "Suspicious", "High Risk Fraud", "Unknown"] : List String))
    ∧ (∃ n : Nat, n ≤ 10 ∧ (jsonPathResult fields).leadQualityScore = some (.num (jnumOfNat n))) := by
  constructor
  · have hr : (jsonPathResult fields).riskLevel = jsOr (jsGet fields ("riskLevel")) (.str ("Unknown")) := rfl
    rw [hr]
    unfold jsOr
    cases hv : jsGet fields ("riskLevel") with
    | none => exact ⟨("Unknown"), rfl, by decide⟩
    | some v =>
      by_cases ht : truthy v
      · obtain ⟨s, rfl, hs⟩ := h1 v hv ht
        exact ⟨s, by simp [ht], hs⟩
      · refine ⟨("Unknown"), ?_, by decide⟩
        simp [ht]
  · have hr : (jsonPathResult fields).leadQualityScore
        = some (jsOr (jsGet fields ("leadQualityScore")) (.num (jnumOfNat 0))) := rfl
    rw [hr]
    unfold jsOr
    cases hv : jsGet fields ("leadQualityScore") with
    | none => exact ⟨0, by decide, rfl⟩
    | some v =>
      by_cases ht : truthy v
      · obtain ⟨n, hn, rfl⟩ := h2 v hv ht
        exact ⟨n, hn, by simp [ht]⟩
      · refine ⟨0, by decide, ?_⟩
        simp [ht]

/-- C2, witness: an object carrying a conforming level and score
satisfies both invariants after parsing. -/
theorem c2_value_passthrough_witness :
    ((∃ s, (jsonPathResult [(("riskLevel"), JSValue.str ("Suspicious")),
        (("leadQualityScore"), JSValue.num (jnumOfNat 7))]).riskLevel = .str s
      ∧ s ∈ (["Safe", "Suspicious", "High Risk Fraud", "Unknown"] : List String))
    ∧ (∃ n : Nat, n ≤ 10 ∧ (jsonPathResult [(("riskLevel"), JSValue.str ("Suspicious")),
        (("leadQualityScore"), JSValue.num (jnumOfNat 7))]).leadQualityScore
          = some (.num (jnumOfNat n)))) := by
  apply c2_value_passthrough
  · intro v hv ht
    have h0 : jsGet [(("riskLevel"), JSValue.str ("Suspicious")),
        (("leadQualityScore"), JSValue.num (jnumOfNat 7))] ("riskLevel")
        = some (JSValue.str ("Suspicious")) := rfl
    rw [h0] at hv
    cases hv
    exact ⟨("Suspicious"), rfl, by decide⟩
  · intro v hv ht
    have h0 : jsGet [(("riskLevel"), JSValue.str ("Suspicious")),
        (("leadQualityScore"), JSValue.num (jnumOfNat 7))] ("leadQualityScore")
        = some (JSValue.num (jnumOfNat 7)) := rfl
    rw [h0] at hv
    cases hv
    exact ⟨7, by decide, rfl⟩

/-- C2, counterexample to the claim as stated: a successfully parsed
object carrying `riskLevel` `Banana` and `leadQualityScore` 42 is
returned verbatim by the primary path, so the result `riskLevel` is none
of the defined levels and the score is far outside the interval from 0
to 10. -/
theorem c2_cx_unvalidated_json :
    (parseAnalysisResponse ("\x7b\"riskLevel\":\"Banana\",\"leadQualityScore\":42\x7d")).riskLevel
      = .str ("Banana")
    ∧ (parseAnalysisResponse ("\x7b\"riskLevel\":\"Banana\",\"leadQualityScore\":42\x7d")).riskLevel
      ≠ .str ("Safe")
    ∧ (parseAnalysisResponse ("\x7b\"riskLevel\":\"Banana\",\"leadQualityScore\":42\x7d")).riskLevel
      ≠ .str ("Suspicious")
    ∧ (parseAnalysisResponse ("\x7b\"riskLevel\":\"Banana\",\"leadQualityScore\":42\x7d")).riskLevel
      ≠ .str ("High Risk Fraud")
    ∧ (parseAnalysisResponse ("\x7b\"riskLevel\":\"Banana\",\"leadQualityScore\":42\x7d")).riskLevel
      ≠ .str ("Unknown")
    ∧ (parseAnalysisResponse ("\x7b\"riskLevel\":\"Banana\",\"leadQualityScore\":42\x7d")).leadQualityScore
      = some (.num (jnumOfNat 42)) := by
  have h : (parseAnalysisResponse ("\x7b\"riskLevel\":\"Banana\",\"leadQualityScore\":42\x7d")).riskLevel
      = .str ("Banana") := rfl
  refine ⟨h, ?_, ?_, ?_, ?_, rfl⟩ <;> (rw [h]; simp)

/-- Helper: value of the lowercase hexadecimal digit characters used by
the serializer. -/
theorem hexVal_hexDigitChar : ∀ n < 16, hexVal (hexDigitChar n) = some n := by decide


/-- Helper: the JSON string-body parser inverts the serializer escaping,
for every character sequence. -/
theorem parseStrChars_escape (cs rest : List Char) :
    parseStrChars (cs.flatMap escChar ++ ('"' :: rest)) = some (cs, rest) := by
  induction cs with
  | nil =>
    simp only [List.flatMap_nil, List.nil_append]
    rw [parseStrChars.eq_def]
    simp
  | cons c t ih =>
    rw [List.flatMap_cons, List.append_assoc]
    by_cases h1 : c = '"'
    · subst h1
      have he : escChar '"' = ['\\', '"'] := rfl
      rw [he]
      show parseStrChars ('\\' :: '"' :: _) = _
      rw [parseStrChars.eq_def]
      simp only [List.cons_append]
      simp [ih]
    · by_cases h2 : c = '\\'
      · subst h2
        have he : escChar '\\' = ['\\', '\\'] := rfl
        rw [he]
        rw [parseStrChars.eq_def]
        simp [ih]
      · by_cases h3 : c = '\x08'
        · subst h3
          have he : escChar '\x08' = ['\\', 'b'] := rfl
          rw [he]
          rw [parseStrChars.eq_def]
          simp [ih]
        · by_cases h4 : c = '\t'
          · subst h4
            have he : escChar '\t' = ['\\', 't'] := rfl
            rw [he]
            rw [parseStrChars.eq_def]
            simp [ih]
          · by_cases h5 : c = '\n'
            · subst h5
              have he : escChar '\n' = ['\\', 'n'] := rfl
              rw [he]
              rw [parseStrChars.eq_def]
              simp [ih]
            · by_cases h6 : c = '\x0c'
              · subst h6
                have he : escChar '\x0c' = ['\\', 'f'] := rfl
                rw [he]
                rw [parseStrChars.eq_def]
                simp [ih]
              · by_cases h7 : c = '\r'
                · subst h7
                  have he : escChar '\r' = ['\\', 'r'] := rfl
                  rw [he]
                  rw [parseStrChars.eq_def]
                  simp [ih]
                · by_cases h8 : c.toNat < 32
                  · have he : escChar c =
                        ['\\', 'u', '0', '0', hexDigitChar (c.toNat / 16), hexDigitChar (c.toNat % 16)] := by
                      unfold escChar
                      rw [if_neg (by simp [h1]), if_neg (by simp [h2]), if_neg (by simp [h3]),
                        if_neg (by simp [h4]), if_neg (by simp [h5]), if_neg (by simp [h6]),
                        if_neg (by simp [h7]), if_pos h8]
                    rw [he]
                    rw [parseStrChars.eq_def]
                    have hdiv : c.toNat / 16 < 16 := by omega
                    have hmod : c.toNat % 16 < 16 := by omega
                    have hh : hex4 '0' '0' (hexDigitChar (c.toNat / 16)) (hexDigitChar (c.toNat % 16))
                        = some (((0 * 16 + 0) * 16 + c.toNat / 16) * 16 + c.toNat % 16) := by
                      unfold hex4
                      rw [hexVal_hexDigitChar _ hdiv, hexVal_hexDigitChar _ hmod]
                      rfl
                    simp only [List.cons_append]
                    simp only [hh]
                    have hn : ((0 * 16 + 0) * 16 + c.toNat / 16) * 16 + c.toNat % 16 = c.toNat := by
                      omega
                    rw [hn]
                    have hcu : codeUnitChar c.toNat = c := by
                      unfold codeUnitChar
                      rw [if_pos (by simp; omega)]
                      exact Char.ofNat_toNat c
                    simp [hcu, ih]
                  · have he : escChar c = [c] := by
                      unfold escChar
                      rw [if_neg (by simp [h1]), if_neg (by simp [h2]), if_neg (by simp [h3]),
                        if_neg (by simp [h4]), if_neg (by simp [h5]), if_neg (by simp [h6]),
                        if_neg (by simp [h7]), if_neg h8]
                    rw [he]
                    rw [parseStrChars.eq_def]
                    simp only [List.cons_append, List.nil_append]
                    rw [if_neg (by simp [h1]), if_neg (by simp [h2]), if_neg h8]
                    simp [ih]

/-- Helper: parsing a serialized string value. -/
theorem parseJValue_str (g : Nat) (vs rest : List Char) :
    parseJValue (g + 1) ('"' :: (vs.flatMap escChar ++ ('"' :: rest)))
      = some (.str (String.mk vs), rest) := by
  rw [parseJValue.eq_def]
  simp [skipWs, parseStrChars_escape]

/-- Helper: parsing a serialized score value. -/
theorem parseJValue_num (g : Nat) (n : Nat) (hn : n ≤ 10) (rest : List Char) :
    parseJValue (g + 1) ((Nat.repr n).data ++ (',' :: rest))
      = some (.num (jnumOfNat n), ',' :: rest) := by
  interval_cases n
  · show parseJValue (g + 1) ('0' :: (',' :: rest)) = _
    rw [parseJValue.eq_def]
    simp [skipWs, parseNumber, digitsToNat, mkNum, jnumMk, stripTens, jnumOfNat]
  · show parseJValue (g + 1) ('1' :: (',' :: rest)) = _
    rw [parseJValue.eq_def]
    simp [skipWs, parseNumber, digitsToNat, mkNum, jnumMk, stripTens, jnumOfNat]
  · show parseJValue (g + 1) ('2' :: (',' :: rest)) = _
    rw [parseJValue.eq_def]
    simp [skipWs, parseNumber, digitsToNat, mkNum, jnumMk, stripTens, jnumOfNat]
  · show parseJValue (g + 1) ('3' :: (',' :: rest)) = _
    rw [parseJValue.eq_def]
    simp [skipWs, parseNumber, digitsToNat, mkNum, jnumMk, stripTens, jnumOfNat]
  · show parseJValue (g + 1) ('4' :: (',' :: rest)) = _
    rw [parseJValue.eq_def]
    simp [skipWs, parseNumber, digitsToNat, mkNum, jnumMk, stripTens, jnumOfNat]
  · show parseJValue (g + 1) ('5' :: (',' :: rest)) = _
    rw [parseJValue.eq_def]
    simp [skipWs, parseNumber, digitsToNat, mkNum, jnumMk, stripTens, jnumOfNat]
  · show parseJValue (g + 1) ('6' :: (',' :: rest)) = _
    rw [parseJValue.eq_def]
    simp [skipWs, parseNumber, digitsToNat, mkNum, jnumMk, stripTens, jnumOfNat]
  · show parseJValue (g + 1) ('7' :: (',' :: rest)) = _
    rw [parseJValue.eq_def]
    simp [skipWs, parseNumber, digitsToNat, mkNum, jnumMk, stripTens, jnumOfNat]
  · show parseJValue (g + 1) ('8' :: (',' :: rest)) = _
    rw [parseJValue.eq_def]
    simp [skipWs, parseNumber, digitsToNat, mkNum, jnumMk, stripTens, jnumOfNat]
  · show parseJValue (g + 1) ('9' :: (',' :: rest)) = _
    rw [parseJValue.eq_def]
    simp [skipWs, parseNumber, digitsToNat, mkNum, jnumMk, stripTens, jnumOfNat]
  · show parseJValue (g + 1) ('1' :: ('0' :: (',' :: rest))) = _
    rw [parseJValue.eq_def]
    simp [skipWs, parseNumber, digitsToNat, mkNum, jnumMk, stripTens, jnumOfNat]

/-- Helper: consuming one string-valued member followed by a comma. -/
theorem parseMembers_str_comma (g : Nat) (ks vs rest : List Char) (acc : List (String × JSValue)) :
    parseMembers (g + 2)
        ('"' :: (ks.flatMap escChar ++ ('"' :: (':' :: ('"' :: (vs.flatMap escChar ++ ('"' :: (',' :: rest)))))))) acc
      = parseMembers (g + 1) rest (acc ++ [(String.mk ks, .str (String.mk vs))]) := by
  rw [parseMembers.eq_def]
  simp [skipWs, parseStrChars_escape, parseJValue_str]

/-- Helper: consuming the final string-valued member and the closing brace. -/
theorem parseMembers_str_brace (g : Nat) (ks vs rest : List Char) (acc : List (String × JSValue)) :
    parseMembers (g + 2)
        ('"' :: (ks.flatMap escChar ++ ('"' :: (':' :: ('"' :: (vs.flatMap escChar ++ ('"' :: ('}' :: rest)))))))) acc
      = some (.obj (acc ++ [(String.mk ks, .str (String.mk vs))]), rest) := by
  rw [parseMembers.eq_def]
  simp [skipWs, parseStrChars_escape, parseJValue_str]

/-- Helper: consuming one number-valued member followed by a comma. -/
theorem parseMembers_num_comma (g : Nat) (ks : List Char) (n : Nat) (hn : n ≤ 10)
    (rest : List Char) (acc : List (String × JSValue)) :
    parseMembers (g + 2)
        ('"' :: (ks.flatMap escChar ++ ('"' :: (':' :: ((Nat.repr n).data ++ (',' :: rest)))))) acc
      = parseMembers (g + 1) rest (acc ++ [(String.mk ks, .num (jnumOfNat n))]) := by
  rw [parseMembers.eq_def]
  simp [skipWs, parseStrChars_escape, parseJValue_num g n hn]

/-- Helper: rebuilding a string from its character data is the identity. -/
theorem strMkData (s : String) : String.mk s.data = s := by
  cases s
  rfl

/-- Helper: entering a serialized object whose first member key follows immediately. -/
theorem parseJValue_objStep (f : Nat) (l : List Char) :
    parseJValue (f + 1) ('{' :: ('"' :: l)) = parseMembers f ('"' :: l) [] := by
  rw [parseJValue.eq_def]
  simp [skipWs]

/-- Helper: the JSON value parser, given enough fuel, recovers the member list of a serialized result. -/
theorem parseJValue_stringify (k : Nat) (r : AnalysisResult) (hn : r.leadQualityScore ≤ 10) :
    parseJValue (k + 9) (stringifyData r) = some (.obj (jsonFieldsOf r), []) := by
  rcases hsr : r.suggestedReply with _ | rep
  · simp only [stringifyData, stringifyFields, hsr, quoteData, List.append_assoc,
      List.cons_append, List.singleton_append, List.nil_append]
    rw [show k + 9 = (k + 8) + 1 from by omega, parseJValue_objStep]
    rw [show k + 8 = (k + 6) + 2 from by omega, parseMembers_str_comma,
      show (k + 6) + 1 = (k + 5) + 2 from by omega, parseMembers_str_comma,
      show (k + 5) + 1 = (k + 4) + 2 from by omega, parseMembers_str_comma,
      show (k + 4) + 1 = (k + 3) + 2 from by omega, parseMembers_str_comma,
      show (k + 3) + 1 = (k + 2) + 2 from by omega,
      parseMembers_num_comma _ _ _ hn,
      show (k + 2) + 1 = (k + 1) + 2 from by omega, parseMembers_str_brace]
    simp [jsonFieldsOf, hsr, strMkData]
  · simp only [stringifyData, stringifyFields, hsr, quoteData, List.append_assoc,
      List.cons_append, List.singleton_append, List.nil_append]
    rw [show k + 9 = (k + 8) + 1 from by omega, parseJValue_objStep]
    rw [show k + 8 = (k + 6) + 2 from by omega, parseMembers_str_comma,
      show (k + 6) + 1 = (k + 5) + 2 from by omega, parseMembers_str_comma,
      show (k + 5) + 1 = (k + 4) + 2 from by omega, parseMembers_str_comma,
      show (k + 4) + 1 = (k + 3) + 2 from by omega, parseMembers_str_comma,
      show (k + 3) + 1 = (k + 2) + 2 from by omega, parseMembers_str_comma,
      show (k + 2) + 1 = (k + 1) + 2 from by omega,
      parseMembers_num_comma _ _ _ hn,
      show (k + 1) + 1 = k + 2 from by omega, parseMembers_str_brace]
    simp [jsonFieldsOf, hsr, strMkData]

/-- Helper: on a text that starts with an opening brace and ends with a
closing brace, the regex extraction returns the whole text. -/
theorem extractBraces_wrap (mid : List Char) :
    extractBraces (String.mk ('{' :: (mid ++ ['}'])))
      = some (String.mk ('{' :: (mid ++ ['}']))) := by
  unfold extractBraces
  have hd : (String.mk ('{' :: (mid ++ ['}']))).data = '{' :: (mid ++ ['}']) := rfl
  rw [hd]
  have h1 : ('{' :: (mid ++ ['}'])).findIdx? (fun c => c == '{') = some 0 := by
    simp [List.findIdx?_cons]
  have h2 : ('{' :: (mid ++ ['}'])).reverse.findIdx? (fun c => c == '}') = some 0 := by
    rw [List.reverse_cons, List.reverse_append]
    simp [List.findIdx?_cons]
  rw [h1, h2]
  have harith : mid.length + 2 - 1 - 0 - 0 + 1 = mid.length + 2 := by omega
  simp [harith, List.take_of_length_le]

/-- Helper: the modelled JSON.parse recovers the member list of a serialized result. -/
theorem jsonParse_stringify (r : AnalysisResult) (hn : r.leadQualityScore ≤ 10) :
    jsonParseJS (stringifyResult r) = some (.obj (jsonFieldsOf r)) := by
  unfold jsonParseJS
  have hd : (stringifyResult r).data = stringifyData r := rfl
  rw [hd]
  have hlen : 8 ≤ (stringifyData r).length := by
    simp [stringifyData, stringifyFields, quoteData, escChar]
  rw [show (stringifyData r).length + 1 = ((stringifyData r).length - 8) + 9 from by omega]
  rw [parseJValue_stringify _ r hn]
  rfl

/-- Helper: removing factors of ten never turns a nonzero number into zero. -/
theorem stripTens_ne_zero : ∀ (f n : Nat) (e : Int), ¬ n = 0 → ¬ (stripTens f n e).1 = 0 := by
  intro f
  induction f with
  | zero =>
    intro n e h
    exact h
  | succ f ih =>
    intro n e h
    rw [stripTens.eq_def]
    simp only []
    split
    case isTrue hc =>
      apply ih
      simp at hc
      omega
    case isFalse hc =>
      exact h

/-- Helper: a nonzero score is a truthy number. -/
theorem truthy_jnumOfNat (n : Nat) (h : ¬ n = 0) : truthy (.num (jnumOfNat n)) = true := by
  unfold jnumOfNat jnumMk
  rw [if_neg (by simpa using h)]
  have hm := stripTens_ne_zero n n 0 h
  simp [truthy]
  omega

/-- Helper: a non-empty string is truthy. -/
theorem truthy_str_ne (s : String) (h : ¬ s = ("")) : truthy (.str s) = true := by
  simp [truthy, h]

/-- Helper: the JSON path of the parser maps the recovered member list
of a valid result back to the original field values. -/
theorem jsonPath_fields (r : AnalysisResult)
    (hlev : r.riskLevel ∈ (["Safe", "Suspicious", "High Risk Fraud", "Unknown"] : List String))
    (h2 : ¬ r.reason = ("")) (h3 : ¬ r.businessImpact = (""))
    (h4 : ¬ r.recommendedAction = ("")) (h5 : ¬ r.businessInsight = (""))
    (h6 : ¬ r.suggestedReply = some ("")) :
    jsonPathResult (jsonFieldsOf r) = resultToJS r := by
  have hlev2 : ¬ r.riskLevel = ("") := by
    simp only [List.mem_cons, List.not_mem_nil, or_false] at hlev
    rcases hlev with h | h | h | h <;> simp [h]
  rcases hsr : r.suggestedReply with _ | rep
  · have hf : jsonFieldsOf r =
        [(("riskLevel"), JSValue.str r.riskLevel), (("reason"), JSValue.str r.reason),
         (("businessImpact"), JSValue.str r.businessImpact),
         (("recommendedAction"), JSValue.str r.recommendedAction),
         (("leadQualityScore"), JSValue.num (jnumOfNat r.leadQualityScore)),
         (("businessInsight"), JSValue.str r.businessInsight)] := by
      simp [jsonFieldsOf, hsr]
    rw [hf]
    unfold jsonPathResult resultToJS
    simp only [ParsedResult.mk.injEq]
    refine ⟨?_, ?_, ?_, ?_, ?_, ?_, ?_⟩
    · rw [show jsGet [(("riskLevel"), JSValue.str r.riskLevel), (("reason"), JSValue.str r.reason),
         (("businessImpact"), JSValue.str r.businessImpact),
         (("recommendedAction"), JSValue.str r.recommendedAction),
         (("leadQualityScore"), JSValue.num (jnumOfNat r.leadQualityScore)),
         (("businessInsight"), JSValue.str r.businessInsight)] ("riskLevel")
          = some (JSValue.str r.riskLevel) from rfl]
      simp [jsOr, truthy_str_ne _ hlev2]
    · rw [show jsGet [(("riskLevel"), JSValue.str r.riskLevel), (("reason"), JSValue.str r.reason),
         (("businessImpact"), JSValue.str r.businessImpact),
         (("recommendedAction"), JSValue.str r.recommendedAction),
         (("leadQualityScore"), JSValue.num (jnumOfNat r.leadQualityScore)),
         (("businessInsight"), JSValue.str r.businessInsight)] ("reason")
          = some (JSValue.str r.reason) from rfl]
      simp [jsOr, truthy_str_ne _ h2]
    · rw [show jsGet [(("riskLevel"), JSValue.str r.riskLevel), (("reason"), JSValue.str r.reason),
         (("businessImpact"), JSValue.str r.businessImpact),
         (("recommendedAction"), JSValue.str r.recommendedAction),
         (("leadQualityScore"), JSValue.num (jnumOfNat r.leadQualityScore)),
         (("businessInsight"), JSValue.str r.businessInsight)] ("businessImpact")
          = some (JSValue.str r.businessImpact) from rfl]
      simp [jsOr, truthy_str_ne _ h3]
    · rw [show jsGet [(("riskLevel"), JSValue.str r.riskLevel), (("reason"), JSValue.str r.reason),
         (("businessImpact"), JSValue.str r.businessImpact),
         (("recommendedAction"), JSValue.str r.recommendedAction),
         (("leadQualityScore"), JSValue.num (jnumOfNat r.leadQualityScore)),
         (("businessInsight"), JSValue.str r.businessInsight)] ("recommendedAction")
          = some (JSValue.str r.recommendedAction) from rfl]
      simp [jsOr, truthy_str_ne _ h4]
    · rw [show jsGet [(("riskLevel"), JSValue.str r.riskLevel), (("reason"), JSValue.str r.reason),
         (("businessImpact"), JSValue.str r.businessImpact),
         (("recommendedAction"), JSValue.str r.recommendedAction),
         (("leadQualityScore"), JSValue.num (jnumOfNat r.leadQualityScore)),
         (("businessInsight"), JSValue.str r.businessInsight)] ("suggestedReply") = none from rfl]
      simp [hsr]
    · rw [show jsGet [(("riskLevel"), JSValue.str r.riskLevel), (("reason"), JSValue.str r.reason),
         (("businessImpact"), JSValue.str r.businessImpact),
         (("recommendedAction"), JSValue.str r.recommendedAction),
         (("leadQualityScore"), JSValue.num (jnumOfNat r.leadQualityScore)),
         (("businessInsight"), JSValue.str r.businessInsight)] ("leadQualityScore")
          = some (JSValue.num (jnumOfNat r.leadQualityScore)) from rfl]
      rcases eq_or_ne r.leadQualityScore 0 with h0 | h0
      · rw [h0]
        simp [jsOr]
      · simp [jsOr, truthy_jnumOfNat _ h0]
    · rw [show jsGet [(("riskLevel"), JSValue.str r.riskLevel), (("reason"), JSValue.str r.reason),
         (("businessImpact"), JSValue.str r.businessImpact),
         (("recommendedAction"), JSValue.str r.recommendedAction),
         (("leadQualityScore"), JSValue.num (jnumOfNat r.leadQualityScore)),
         (("businessInsight"), JSValue.str r.businessInsight)] ("businessInsight")
          = some (JSValue.str r.businessInsight) from rfl]
      simp [jsOr, truthy_str_ne _ h5]
  · have hrep : ¬ rep = ("") := by
      intro he
      apply h6
      rw [hsr, he]
    have hf : jsonFieldsOf r =
        [(("riskLevel"), JSValue.str r.riskLevel), (("reason"), JSValue.str r.reason),
         (("businessImpact"), JSValue.str r.businessImpact),
         (("recommendedAction"), JSValue.str r.recommendedAction),
         (("suggestedReply"), JSValue.str rep),
         (("leadQualityScore"), JSValue.num (jnumOfNat r.leadQualityScore)),
         (("businessInsight"), JSValue.str r.businessInsight)] := by
      simp [jsonFieldsOf, hsr]
    rw [hf]
    unfold jsonPathResult resultToJS
    simp only [ParsedResult.mk.injEq]
    refine ⟨?_, ?_, ?_, ?_, ?_, ?_, ?_⟩
    · rw [show jsGet [(("riskLevel"), JSValue.str r.riskLevel), (("reason"), JSValue.str r.reason),
         (("businessImpact"), JSValue.str r.businessImpact),
         (("recommendedAction"), JSValue.str r.recommendedAction),
         (("suggestedReply"), JSValue.str rep),
         (("leadQualityScore"), JSValue.num (jnumOfNat r.leadQualityScore)),
         (("businessInsight"), JSValue.str r.businessInsight)] ("riskLevel")
          = some (JSValue.str r.riskLevel) from rfl]
      simp [jsOr, truthy_str_ne _ hlev2]
    · rw [show jsGet [(("riskLevel"), JSValue.str r.riskLevel), (("reason"), JSValue.str r.reason),
         (("businessImpact"), JSValue.str r.businessImpact),
         (("recommendedAction"), JSValue.str r.recommendedAction),
         (("suggestedReply"), JSValue.str rep),
         (("leadQualityScore"), JSValue.num (jnumOfNat r.leadQualityScore)),
         (("businessInsight"), JSValue.str r.businessInsight)] ("reason")
          = some (JSValue.str r.reason) from rfl]
      simp [jsOr, truthy_str_ne _ h2]
    · rw [show jsGet [(("riskLevel"), JSValue.str r.riskLevel), (("reason"), JSValue.str r.reason),
         (("businessImpact"), JSValue.str r.businessImpact),
         (("recommendedAction"), JSValue.str r.recommendedAction),
         (("suggestedReply"), JSValue.str rep),
         (("leadQualityScore"), JSValue.num (jnumOfNat r.leadQualityScore)),
         (("businessInsight"), JSValue.str r.businessInsight)] ("businessImpact")
          = some (JSValue.str r.businessImpact) from rfl]
      simp [jsOr, truthy_str_ne _ h3]
    · rw [show jsGet [(("riskLevel"), JSValue.str r.riskLevel), (("reason"), JSValue.str r.reason),
         (("businessImpact"), JSValue.str r.businessImpact),
         (("recommendedAction"), JSValue.str r.recommendedAction),
         (("suggestedReply"), JSValue.str rep),
         (("leadQualityScore"), JSValue.num (jnumOfNat r.leadQualityScore)),
         (("businessInsight"), JSValue.str r.businessInsight)] ("recommendedAction")
          = some (JSValue.str r.recommendedAction) from rfl]
      simp [jsOr, truthy_str_ne _ h4]
    · rw [show jsGet [(("riskLevel"), JSValue.str r.riskLevel), (("reason"), JSValue.str r.reason),
         (("businessImpact"), JSValue.str r.businessImpact),
         (("recommendedAction"), JSValue.str r.recommendedAction),
         (("suggestedReply"), JSValue.str rep),
         (("leadQualityScore"), JSValue.num (jnumOfNat r.leadQualityScore)),
         (("businessInsight"), JSValue.str r.businessInsight)] ("suggestedReply")
          = some (JSValue.str rep) from rfl]
      rw [hsr]
      simp [truthy_str_ne _ hrep]
    · rw [show jsGet [(("riskLevel"), JSValue.str r.riskLevel), (("reason"), JSValue.str r.reason),
         (("businessImpact"), JSValue.str r.businessImpact),
         (("recommendedAction"), JSValue.str r.recommendedAction),
         (("suggestedReply"), JSValue.str rep),
         (("leadQualityScore"), JSValue.num (jnumOfNat r.leadQualityScore)),
         (("businessInsight"), JSValue.str r.businessInsight)] ("leadQualityScore")
          = some (JSValue.num (jnumOfNat r.leadQualityScore)) from rfl]
      rcases eq_or_ne r.leadQualityScore 0 with h0 | h0
      · rw [h0]
        simp [jsOr]
      · simp [jsOr, truthy_jnumOfNat _ h0]
    · rw [show jsGet [(("riskLevel"), JSValue.str r.riskLevel), (("reason"), JSValue.str r.reason),
         (("businessImpact"), JSValue.str r.businessImpact),
         (("recommendedAction"), JSValue.str r.recommendedAction),
         (("suggestedReply"), JSValue.str rep),
         (("leadQualityScore"), JSValue.num (jnumOfNat r.leadQualityScore)),
         (("businessInsight"), JSValue.str r.businessInsight)] ("businessInsight")
          = some (JSValue.str r.businessInsight) from rfl]
      simp [jsOr, truthy_str_ne _ h5]

/-- C6, amended: for every valid result record (risk level among the
defined levels, the narrative fields non-empty, score at most 10, and -
the amendment - `suggestedReply`, when present, non-empty), serializing
to the documented JSON shape and parsing back through the primary path
restores every field. -/
theorem c6_round_trip (r : AnalysisResult)
    (hlev : r.riskLevel ∈ (["Safe", "Suspicious", "High Risk Fraud", "Unknown"] : List String))
    (h2 : ¬ r.reason = ("")) (h3 : ¬ r.businessImpact = (""))
    (h4 : ¬ r.recommendedAction = ("")) (h5 : ¬ r.businessInsight = (""))
    (hscore : r.leadQualityScore ≤ 10)
    (h6 : ¬ r.suggestedReply = some ("")) :
    parseAnalysisResponse (stringifyResult r) = resultToJS r := by
  unfold parseAnalysisResponse
  have hx : extractBraces (stringifyResult r) = some (stringifyResult r) := by
    have hs : stringifyResult r = String.mk ('{' :: (stringifyFields r ++ ['}'])) := rfl
    rw [hs]
    exact extractBraces_wrap _
  rw [hx]
  simp only [jsonParse_stringify r hscore]
  exact jsonPath_fields r hlev h2 h3 h4 h5 h6

set_option maxRecDepth 32768 in
/-- C6, witness: a concrete valid record round-trips. -/
theorem c6_round_trip_witness :
    parseAnalysisResponse (stringifyResult
        { riskLevel := ("Safe"), reason := ("ok"), businessImpact := ("ok"),
          recommendedAction := ("ok"), suggestedReply := some ("hi"),
          leadQualityScore := 7, businessInsight := ("ok") })
      = resultToJS
        { riskLevel := ("Safe"), reason := ("ok"), businessImpact := ("ok"),
          recommendedAction := ("ok"), suggestedReply := some ("hi"),
          leadQualityScore := 7, businessInsight := ("ok") } :=
  c6_round_trip _ (by decide) (by decide) (by decide) (by decide) (by decide) (by decide) (by decide)

set_option maxRecDepth 32768 in
/-- C6, counterexample to the claim as stated: a record that is valid
per the claim conditions but carries a present-and-empty
`suggestedReply` does not round-trip - serializing and parsing it loses
the field, because the empty string is falsy and the JSON path coerces
it to undefined. -/
theorem c6_cx_empty_suggested_reply :
    (({ riskLevel := ("Safe"), reason := ("a"), businessImpact := ("b"),
        recommendedAction := ("c"), suggestedReply := some (""),
        leadQualityScore := 0, businessInsight := ("d") } : AnalysisResult).riskLevel
      ∈ (["Safe", "Suspicious", "High Risk Fraud", "Unknown"] : List String))
    ∧ (parseAnalysisResponse (stringifyResult
        { riskLevel := ("Safe"), reason := ("a"), businessImpact := ("b"),
          recommendedAction := ("c"), suggestedReply := some (""),
          leadQualityScore := 0, businessInsight := ("d") })).suggestedReply = none
    ∧ (resultToJS
        { riskLevel := ("Safe"), reason := ("a"), businessImpact := ("b"),
          recommendedAction := ("c"), suggestedReply := some (""),
          leadQualityScore := 0, businessInsight := ("d") }).suggestedReply
      = some (.str ("")) := by
  refine ⟨by decide, ?_, rfl⟩
  rfl
